import Mathlib

set_option maxHeartbeats 1000000

/-
Verification of the block-based document editor (repository vkymunir/ai-editor).

The data model is translated from src/types.ts, and the Document Store operations
from the App component in src/unnamed/part_000:

  - handleAddPage            (lines 90-113)
  - handleDeletePage         (lines 115-131)
  - handleSwitchPage         (lines 133-136)
  - updateBlocksForCurrentPage (lines 138-157)
  - handleAiSearch           (lines 165-197)
  - the load effect          (lines 31-52)
  - the save effect          (lines 54-76)

The JS Record<string, Page> is embedded as an association list in key-insertion
order; JS object keys are unique, and lookup, update and delete act on the first
occurrence of a key.  The nondeterministic id source Date.now() is threaded through
the operations as an explicit Nat parameter.  JS truthiness of string values is
modelled exactly: a check such as if (!currentPageId) is true both for null and for
the empty string.
-/

namespace AiEditor

/-- Block kinds, from the BlockType enum in src/types.ts. -/
inductive BlockType where
  | h1
  | h2
  | p
  | ul
  | ol
  | todo
  | img
  | quote
  | divider
  | code
  | ai_search_result
deriving DecidableEq

/-- A citation pair carried by an ai_search_result block, from src/types.ts. -/
structure Citation where
  uri : String
  title : String
deriving DecidableEq

/-- The ContentBlock interface from src/types.ts; optional fields are Option. -/
structure ContentBlock where
  id : String
  type : BlockType
  content : String
  checked : Option Bool := none
  src : Option String := none
  language : Option String := none
  sources : Option (List Citation) := none
deriving DecidableEq

/-- The Page interface from src/types.ts. -/
structure Page where
  id : String
  title : String
  blocks : List ContentBlock
deriving DecidableEq

/-- The Theme type from src/types.ts. -/
inductive Theme where
  | light
  | dark
deriving DecidableEq

/-- The in-memory state of the App component: the pages record, the current page
id (null modelled as none) and the theme. -/
structure AppState where
  pages : List (String × Page)
  currentPageId : Option String
  theme : Theme
deriving DecidableEq

/-- Lookup in the pages record: pages[k], none when the key is missing. -/
def recordLookup : List (String × Page) → String → Option Page
  | [], _ => none
  | kv :: rest, k => if kv.1 = k then some kv.2 else recordLookup rest k

/-- Write pages[k] = v: replace the value in place when the key is present,
append the binding at the end otherwise (JS object key-insertion order). -/
def recordSet : List (String × Page) → String → Page → List (String × Page)
  | [], k, v => [(k, v)]
  | kv :: rest, k, v => if kv.1 = k then (k, v) :: rest else kv :: recordSet rest k v

/-- Remove the key k from the pages record (the delete operator). -/
def recordErase : List (String × Page) → String → List (String × Page)
  | [], _ => []
  | kv :: rest, k => if kv.1 = k then recordErase rest k else kv :: recordErase rest k

/-- Object.keys of the pages record, in insertion order. -/
def recordKeys (m : List (String × Page)) : List String :=
  m.map Prod.fst

/-- One pass of the global regex replace content.replace of all tag-shaped spans:
each span starts at a left angle bracket, greedily takes every character that is
not a right angle bracket, then one optional right angle bracket.  The Bool flag
records whether the scanner is currently inside such a span. -/
def stripTagsAux : Bool → List Char → List Char
  | _, [] => []
  | true, c :: rest => if c = '>' then stripTagsAux false rest else stripTagsAux true rest
  | false, c :: rest => if c = '<' then stripTagsAux true rest else c :: stripTagsAux false rest

/-- content with every markup-tag span removed, as done at line 146 of the source. -/
def stripTags (s : String) : String :=
  String.mk (stripTagsAux false s.data)

/-- The whitespace characters removed by String.prototype.trim. -/
def isJsWhitespace (c : Char) : Bool :=
  decide (c = ' ') || decide (c = '\t') || decide (c = '\n') || decide (c = '\r') ||
    decide (c = '\x0b') || decide (c = '\x0c') || decide (c = '\u00A0') ||
    decide (c = '\uFEFF')

/-- JS String.prototype.trim: drop leading and trailing whitespace. -/
def jsTrim (s : String) : String :=
  String.mk (((s.data.dropWhile isJsWhitespace).reverse.dropWhile isJsWhitespace).reverse)

/-- The default two-block seed built inside handleAddPage (lines 92-95), with the
Date.now() timestamp passed explicitly. -/
def defaultBlocks (now : Nat) : List ContentBlock :=
  [ { id := toString now ++ "-1", type := BlockType.h1, content := "Untitled" },
    { id := toString now ++ "-2", type := BlockType.p, content := "" } ]

/-- handleAddPage (lines 90-113).  blocks is the optional initialBlocks argument;
an empty list is a present (truthy) argument, exactly as in JS where an empty
array is truthy.  When blocks is supplied, the title is overwritten with the raw
content of the first heading-1 block found in it. -/
def handleAddPage (now : Nat) (blocks : Option (List ContentBlock)) (s : AppState) :
    AppState :=
  let newPageId := "page-" ++ toString now
  let newPage : Page :=
    { id := newPageId, title := "Untitled", blocks := blocks.getD (defaultBlocks now) }
  let newPage2 : Page :=
    match blocks with
    | some bs =>
      match bs.find? (fun b => decide (b.type = BlockType.h1)) with
      | some h1Block => { newPage with title := h1Block.content }
      | none => newPage
    | none => newPage
  { s with pages := recordSet s.pages newPageId newPage2,
           currentPageId := some newPageId }

/-- handleDeletePage (lines 115-131).  The now parameter is the timestamp used by
the nested handleAddPage call when the last page is deleted. -/
def handleDeletePage (now : Nat) (pageIdToDelete : String) (s : AppState) : AppState :=
  let remainingPageIds :=
    (recordKeys s.pages).filter (fun id => decide (¬ id = pageIdToDelete))
  let s1 := { s with pages := recordErase s.pages pageIdToDelete }
  if s.currentPageId = some pageIdToDelete then
    match remainingPageIds with
    | firstId :: _ => { s1 with currentPageId := some firstId }
    | [] => handleAddPage now none s1
  else
    s1

/-- handleSwitchPage (lines 133-136): sets currentPageId unconditionally, with no
check that the id is a key of pages. -/
def handleSwitchPage (pageId : String) (s : AppState) : AppState :=
  { s with currentPageId := some pageId }

/-- updateBlocksForCurrentPage (lines 138-157).  The guard at line 139 tests JS
truthiness of currentPageId, so both null and the empty string return early. -/
def updateBlocksForCurrentPage (newBlocks : List ContentBlock) (s : AppState) :
    AppState :=
  match s.currentPageId with
  | none => s
  | some currentPageId =>
    if currentPageId = "" then s
    else
      match recordLookup s.pages currentPageId with
      | none => s
      | some currentPage =>
        let newTitle :=
          match newBlocks.find? (fun b => decide (b.type = BlockType.h1)) with
          | some h1Block => jsTrim (stripTags h1Block.content)
          | none => "Untitled"
        { s with
            pages := recordSet s.pages currentPageId
              { currentPage with
                  blocks := newBlocks,
                  title := if newTitle = "" then "Untitled" else newTitle } }

/-- The asynchronous search result: generated text plus citations, the shape
returned by geminiService.generateWithGoogleSearch. -/
structure SearchResult where
  text : String
  sources : List Citation
deriving DecidableEq

/-- The quote block built for the prompt at lines 177-181. -/
def aiPromptBlock (now : Nat) (prompt : String) : ContentBlock :=
  { id := "search-prompt-" ++ toString now, type := BlockType.quote,
    content := "> " ++ prompt }

/-- The ai_search_result block built at lines 170-175. -/
def aiResultBlock (now : Nat) (res : SearchResult) : ContentBlock :=
  { id := "search-result-" ++ toString now, type := BlockType.ai_search_result,
    content := res.text, sources := some res.sources }

/-- The setPages functional update at lines 183-196, run when the asynchronous
search result resolves.  cid is the page id captured at call time; if it no
longer resolves in pages, the previous state is returned unchanged. -/
def resolveAiSearch (now : Nat) (prompt : String) (res : SearchResult) (cid : String)
    (s : AppState) : AppState :=
  match recordLookup s.pages cid with
  | none => s
  | some currentPage =>
    { s with
        pages := recordSet s.pages cid
          { currentPage with
              blocks := currentPage.blocks ++
                [aiPromptBlock now prompt, aiResultBlock now res] } }

/-- handleAiSearch (lines 165-197) for the run in which no other operation
interleaves between call and resolution.  outcome is the settled external call:
an error models a rejected promise, in which case the await throws and nothing
after it runs.  The guard at line 166 tests JS truthiness of currentPageId. -/
def handleAiSearch (now : Nat) (prompt : String) (outcome : Except Unit SearchResult)
    (s : AppState) : AppState :=
  match s.currentPageId with
  | none => s
  | some cid =>
    if cid = "" then s
    else
      match outcome with
      | Except.error _ => s
      | Except.ok res => resolveAiSearch now prompt res cid s

/-- Modelled from the spec: the template catalogue pageTemplates, imported at line 8
of the source, lives outside src/.  Per sections 4.1 and 4.3 of the spec, the first
catalogue entry supplies the default seed used on first-ever run: one heading-1
block with content "Untitled" and one empty paragraph block.  A template is a fixed
module constant, so its block ids are fixed stored strings. -/
def pageTemplates0blocks : List ContentBlock :=
  [ { id := "template-1", type := BlockType.h1, content := "Untitled" },
    { id := "template-2", type := BlockType.p, content := "" } ]

/-- The load effect, pages part (lines 31-52).  parse models JSON.parse on the
stored pages entry, an external builtin: Except.error is a thrown parse error,
caught at line 48, after which handleAddPage() runs on the untouched state.
savedPages and savedCurrentPageId are the two localStorage reads; the truthiness
test at line 39 is false for an absent entry and for the empty string. -/
def loadEffect (now : Nat) (parse : String → Except Unit (List (String × Page)))
    (savedPages savedCurrentPageId : Option String) (s : AppState) : AppState :=
  match savedPages with
  | some raw =>
    match parse raw with
    | Except.ok parsedPages =>
      let s1 := { s with pages := parsedPages }
      let validSaved :=
        match savedCurrentPageId with
        | some c =>
          if ¬ c = "" ∧ (recordLookup parsedPages c).isSome = true then some c else none
        | none => none
      match validSaved with
      | some c => { s1 with currentPageId := some c }
      | none =>
        match recordKeys parsedPages with
        | firstKey :: _ => { s1 with currentPageId := some firstKey }
        | [] => s1
    | Except.error _ => handleAddPage now none s
  | none => handleAddPage now (some pageTemplates0blocks) s

/-- The three durable entries written by the save effect: editor-theme,
editor-pages and editor-currentPageId.  none models an absent key. -/
structure Storage where
  themeEntry : Option String
  pagesEntry : Option String
  currentPageIdEntry : Option String
deriving DecidableEq

/-- The serialized theme value. -/
def themeToString : Theme → String
  | Theme.light => "light"
  | Theme.dark => "dark"

/-- The save effect (lines 54-76).  encode models JSON.stringify on the pages
record, an external builtin passed as a parameter.  The truthiness test at line 68
on currentPageId is false both for null and for the empty string. -/
def saveEffect (encode : List (String × Page) → String) (s : AppState) (st : Storage) :
    Storage :=
  let st1 := { st with themeEntry := some (themeToString s.theme) }
  let st2 :=
    if (recordKeys s.pages).length > 0 then
      { st1 with pagesEntry := some (encode s.pages) }
    else
      { st1 with pagesEntry := none }
  match s.currentPageId with
  | some c =>
    if ¬ c = "" then { st2 with currentPageIdEntry := some c }
    else { st2 with currentPageIdEntry := none }
  | none => { st2 with currentPageIdEntry := none }

/-- The three Document Store operations quantified over by claim C1, with their
Date.now() timestamps made explicit. -/
inductive StoreOp where
  | create (now : Nat) (blocks : Option (List ContentBlock))
  | delete (now : Nat) (id : String)
  | switch (id : String)

/-- Dispatch of a StoreOp to the corresponding handler. -/
def applyOp : StoreOp → AppState → AppState
  | StoreOp.create now blocks, s => handleAddPage now blocks s
  | StoreOp.delete now pid, s => handleDeletePage now pid s
  | StoreOp.switch pid, s => handleSwitchPage pid s

/-- The Store invariant of claim C1: currentPageId is either empty or a key
present in pages. -/
def currentPageValid (s : AppState) : Bool :=
  match s.currentPageId with
  | none => true
  | some c => (recordLookup s.pages c).isSome

/-- The title derivation rule as the claims state it: the content of the first
heading-1 block with markup tags stripped and whitespace trimmed, and the literal
"Untitled" when no heading-1 exists or the result is empty.  Stated separately
from the source operations so that it can be compared with what they compute. -/
def deriveTitleSpec (bs : List ContentBlock) : String :=
  match bs.find? (fun b => decide (b.type = BlockType.h1)) with
  | none => "Untitled"
  | some h1Block =>
    let t := jsTrim (stripTags h1Block.content)
    if t = "" then "Untitled" else t

/-- A page with the ids of its blocks blanked, used to compare the two load
fallback paths up to generated block ids. -/
def eraseBlockIds (pg : Page) : Page :=
  { pg with blocks := pg.blocks.map (fun b => { b with id := "" }) }

/-- The page created by handleAddPage with no blocks argument. -/
def defaultPage (now : Nat) : Page :=
  { id := "page-" ++ toString now, title := "Untitled", blocks := defaultBlocks now }

/-- A minimal concrete page used by the concrete instances below. -/
def pageP : Page :=
  { id := "p", title := "Untitled", blocks := [] }

/-- A store holding the single page p, which is current. -/
def stateC1 : AppState :=
  { pages := [("p", pageP)], currentPageId := some "p", theme := Theme.light }

/-- A heading-1 block whose content carries embedded markup. -/
def blockHelloH1 : ContentBlock :=
  { id := "b1", type := BlockType.h1, content := "Hello <b>World</b>" }

/-- A one-block replacement sequence with a marked-up heading. -/
def newBlocksHello : List ContentBlock :=
  [blockHelloH1]

/-- A concrete page with a stale title. -/
def pageOld : Page :=
  { id := "p1", title := "Old", blocks := [] }

/-- A store holding the single page p1, which is current. -/
def stateOne : AppState :=
  { pages := [("p1", pageOld)], currentPageId := some "p1", theme := Theme.light }

/-- A page stored under the empty-string key. -/
def pageEmptyKey : Page :=
  { id := "", title := "Old", blocks := [] }

/-- A store whose current page id is the empty string and whose pages record has
the empty string as a key: currentPageId resolves, yet it is JS-falsy. -/
def stateEmptyId : AppState :=
  { pages := [("", pageEmptyKey)], currentPageId := some "", theme := Theme.light }

/-- A concrete successful search result with one citation. -/
def resX : SearchResult :=
  { text := "X is Y.", sources := [{ uri := "http://a", title := "A" }] }

/-- A page holding one paragraph block. -/
def pageWithOne : Page :=
  { id := "p1", title := "T",
    blocks := [{ id := "b0", type := BlockType.p, content := "hi" }] }

/-- A store holding the single page p1 with one block, which is current. -/
def stateAi : AppState :=
  { pages := [("p1", pageWithOne)], currentPageId := some "p1", theme := Theme.light }

/-- The initial state of the App component before any effect runs. -/
def emptyState : AppState :=
  { pages := [], currentPageId := none, theme := Theme.light }

/-- A concrete JSON.parse stand-in that always throws. -/
def parseAlwaysFails : String → Except Unit (List (String × Page)) :=
  fun _ => Except.error ()

/-- A concrete JSON.stringify stand-in. -/
def encodeConst : List (String × Page) → String :=
  fun _ => "encoded"

/-- A durable store with no entries. -/
def storageEmpty : Storage :=
  { themeEntry := none, pagesEntry := none, currentPageIdEntry := none }

/-- A store with a nonempty pages record whose currentPageId is the empty string,
which is present (not null) but JS-falsy. -/
def stateEmptyCurrent : AppState :=
  { pages := [("p", pageP)], currentPageId := some "", theme := Theme.light }

/-- A store holding two pages with p1 current. -/
def stateTwoPages : AppState :=
  { pages := [("p1", pageOld), ("p2", pageP)], currentPageId := some "p1",
    theme := Theme.light }

/-- Looking up the key just written by recordSet yields the written value. -/
theorem recordLookup_set_self (m : List (String × Page)) (k : String) (v : Page) :
    recordLookup (recordSet m k v) k = some v := by
  induction m with
  | nil => simp [recordSet, recordLookup]
  | cons kv rest ih =>
    by_cases h : kv.1 = k
    · simp [recordSet, h, recordLookup]
    · simp [recordSet, h, recordLookup, ih]

/-- recordSet leaves the value of every other key unchanged. -/
theorem recordLookup_set_ne (m : List (String × Page)) (k kx : String) (v : Page)
    (h : ¬ kx = k) :
    recordLookup (recordSet m k v) kx = recordLookup m kx := by
  induction m with
  | nil => simp [recordSet, recordLookup, Ne.symm h]
  | cons kv rest ih =>
    by_cases hk : kv.1 = k
    · simp [recordSet, hk, recordLookup, Ne.symm h]
    · simp [recordSet, hk, recordLookup, ih]

/-- recordErase leaves the value of every other key unchanged. -/
theorem recordLookup_erase_ne (m : List (String × Page)) (k kx : String)
    (h : ¬ kx = k) :
    recordLookup (recordErase m k) kx = recordLookup m kx := by
  induction m with
  | nil => simp [recordErase, recordLookup]
  | cons kv rest ih =>
    by_cases hk : kv.1 = k
    · simp [recordErase, hk, recordLookup, Ne.symm h, ih]
    · simp [recordErase, hk, recordLookup, ih]

/-- Every key of the record resolves under recordLookup. -/
theorem recordLookup_isSome_of_mem_keys (m : List (String × Page)) (k : String)
    (h : k ∈ recordKeys m) : (recordLookup m k).isSome = true := by
  induction m with
  | nil => simp [recordKeys] at h
  | cons kv rest ih =>
    by_cases hk : kv.1 = k
    · simp [recordLookup, hk]
    · have hmem : k ∈ recordKeys rest := by
        simp only [recordKeys, List.map_cons, List.mem_cons] at h
        rcases h with h | h
        · exact absurd h.symm hk
        · simpa [recordKeys] using h
      simp [recordLookup, hk, ih hmem]

/-- Mapping a function over recordSet only depends on the image of the written
binding. -/
theorem map_recordSet_congr {α : Type} (m : List (String × Page)) (k : String)
    (v w : Page) (f : String × Page → α) (h : f (k, v) = f (k, w)) :
    (recordSet m k v).map f = (recordSet m k w).map f := by
  induction m with
  | nil => simp [recordSet, h]
  | cons kv rest ih =>
    by_cases hk : kv.1 = k
    · simp [recordSet, hk, h]
    · simp [recordSet, hk, ih]

/-- Claim C1, counterexample: from a state satisfying the invariant (currentPageId
resolves to the single page p), a single switchPage with the absent id q leaves
currentPageId as a dangling reference, so the claimed invariant does not hold
after every operation. -/
theorem claim1_counterexample :
    currentPageValid stateC1 = true ∧
    currentPageValid (applyOp (StoreOp.switch "q") stateC1) = false := by
  constructor <;> decide

/-- Claim C1, amended: after every createPage and every deletePage the invariant
(currentPageId empty or a key of pages) is preserved, and after switchPage(id)
whenever id is a key of pages; switchPage with an absent id is the single
violating case. -/
theorem claim1_amended (s : AppState) (op : StoreOp)
    (hInv : currentPageValid s = true)
    (hSwitch : ∀ pid, op = StoreOp.switch pid → (recordLookup s.pages pid).isSome = true) :
    currentPageValid (applyOp op s) = true := by
  cases op with
  | create now blocks =>
    simp [applyOp, handleAddPage, currentPageValid, recordLookup_set_self]
  | switch pid =>
    have h := hSwitch pid rfl
    simpa [applyOp, handleSwitchPage, currentPageValid] using h
  | delete now pid =>
    by_cases hc : s.currentPageId = some pid
    · cases hrem : (recordKeys s.pages).filter (fun id => !decide (id = pid)) with
      | nil =>
        simp [applyOp, handleDeletePage, hc, hrem, handleAddPage, currentPageValid,
          recordLookup_set_self]
      | cons firstId rest =>
        have hmem : firstId ∈ (recordKeys s.pages).filter (fun id => !decide (id = pid)) := by
          rw [hrem]
          exact List.mem_cons_self _ _
        have hmem2 := List.mem_filter.mp hmem
        have hne : ¬ firstId = pid := by
          have hd := hmem2.2
          simpa using hd
        have hsome := recordLookup_isSome_of_mem_keys s.pages firstId hmem2.1
        simp [applyOp, handleDeletePage, hc, hrem, currentPageValid,
          recordLookup_erase_ne _ _ _ hne, hsome]
    · cases hcur : s.currentPageId with
      | none => simp [applyOp, handleDeletePage, hc, currentPageValid, hcur]
      | some c =>
        have hne : ¬ c = pid := by
          intro he
          apply hc
          rw [hcur, he]
        have hsome : (recordLookup s.pages c).isSome = true := by
          simpa [currentPageValid, hcur] using hInv
        simp [applyOp, handleDeletePage, hc, currentPageValid, hcur, hne,
          recordLookup_erase_ne _ _ _ hne, hsome]

/-- Claim C1, witness for the amended theorem: switching to the existing page p
from a valid concrete state keeps the invariant. -/
theorem claim1_witness :
    currentPageValid (applyOp (StoreOp.switch "p") stateC1) = true :=
  claim1_amended stateC1 (StoreOp.switch "p") (by decide)
    (fun pid h => by
      injection h with h2
      subst h2
      decide)

/-- Claim C4: when the external search call rejects, handleAiSearch leaves the
Document Store state exactly as it was: no block is appended and no page is
modified. -/
theorem claim4_error_leaves_state_unchanged (now : Nat) (prompt : String) (e : Unit)
    (s : AppState) :
    handleAiSearch now prompt (Except.error e) s = s := by
  cases hcur : s.currentPageId with
  | none => simp [handleAiSearch, hcur]
  | some c =>
    by_cases hce : c = ""
    · simp [handleAiSearch, hcur, hce]
    · simp [handleAiSearch, hcur, hce]

/-- Claim C5: deleting the only page, which is current, yields a state with
exactly one page, the freshly created default page, and currentPageId referring
to that new page. -/
theorem claim5_delete_last_page (now : Nat) (p : String) (pg : Page) (th : Theme) :
    handleDeletePage now p { pages := [(p, pg)], currentPageId := some p, theme := th } =
      { pages := [("page-" ++ toString now, defaultPage now)],
        currentPageId := some ("page-" ++ toString now), theme := th } := by
  simp [handleDeletePage, recordKeys, recordErase, handleAddPage, defaultPage,
    defaultBlocks, recordSet]

/-- Claim C8: when the asynchronous result resolves and the page id captured at
call time no longer resolves in pages, the resolution-time update is a silent
no-op: the whole state, in particular the pages record, is unchanged, and the
update returns normally rather than raising an error. -/
theorem claim8_stale_append_noop (now : Nat) (prompt : String) (res : SearchResult)
    (cid : String) (s : AppState) (h : recordLookup s.pages cid = none) :
    resolveAiSearch now prompt res cid s = s := by
  simp [resolveAiSearch, h]

/-- Claim C8, witness: resolving a search for the deleted page id gone leaves the
concrete state untouched. -/
theorem claim8_witness :
    resolveAiSearch 9 "q" resX "gone" stateAi = stateAi :=
  claim8_stale_append_noop 9 "q" resX "gone" stateAi rfl

/-- Claim C2, counterexample: when the current page id is the empty string the
guard if (not currentPageId) makes updateBlocksForCurrentPage a no-op even though
the id resolves in pages, so the blocks are not replaced as the claim states. -/
theorem claim2_counterexample :
    stateEmptyId.currentPageId = some "" ∧
    recordLookup stateEmptyId.pages "" = some pageEmptyKey ∧
    ¬ recordLookup (updateBlocksForCurrentPage newBlocksHello stateEmptyId).pages "" =
        some { pageEmptyKey with
               blocks := newBlocksHello,
               title := deriveTitleSpec newBlocksHello } := by
  refine ⟨rfl, rfl, ?_⟩
  decide

/-- Claim C2, amended: for every existing current page whose id is not the empty
string, updateBlocksForCurrentPage replaces its blocks with newBlocks verbatim and
sets its title to the derivation-rule value: first heading-1 content with markup
tags stripped and whitespace trimmed, and "Untitled" when absent or empty. -/
theorem claim2_amended (s : AppState) (cid : String) (pg : Page)
    (nbs : List ContentBlock)
    (h1 : s.currentPageId = some cid) (hne : ¬ cid = "")
    (h2 : recordLookup s.pages cid = some pg) :
    recordLookup (updateBlocksForCurrentPage nbs s).pages cid =
      some { pg with blocks := nbs, title := deriveTitleSpec nbs } := by
  cases hf : nbs.find? (fun b => decide (b.type = BlockType.h1)) with
  | none =>
    simp [updateBlocksForCurrentPage, h1, hne, h2, hf, deriveTitleSpec,
      recordLookup_set_self]
  | some h1Block =>
    simp [updateBlocksForCurrentPage, h1, hne, h2, hf, deriveTitleSpec,
      recordLookup_set_self]

/-- Claim C2, witness: replacing the blocks of page p1 with a single heading-1
block whose content carries markup yields the stripped, trimmed title. -/
theorem claim2_witness :
    recordLookup (updateBlocksForCurrentPage newBlocksHello stateOne).pages "p1" =
      some { id := "p1", title := "Hello World", blocks := newBlocksHello } := by
  have h := claim2_amended stateOne "p1" pageOld newBlocksHello rfl (by decide) rfl
  rw [h]
  decide

/-- Claim C3, counterexample: when the current page id is the empty string the
guard if (not currentPageId) makes handleAiSearch return before the external
call, so nothing is appended even though the id resolves in pages. -/
theorem claim3_counterexample :
    stateEmptyId.currentPageId = some "" ∧
    recordLookup stateEmptyId.pages "" = some pageEmptyKey ∧
    ¬ recordLookup
        (handleAiSearch 4 "what is X?" (Except.ok resX) stateEmptyId).pages "" =
        some { pageEmptyKey with
               blocks := pageEmptyKey.blocks ++
                 [aiPromptBlock 4 "what is X?", aiResultBlock 4 resX] } := by
  refine ⟨rfl, rfl, ?_⟩
  decide

/-- Claim C3, amended: for every existing current page whose id is not the empty
string, a successful handleAiSearch appends exactly two blocks at the end, the
original blocks staying unchanged and in order: first a quote block whose content
is the quoted prompt, then an ai_search_result block carrying the result text and
the citation sequence. -/
theorem claim3_amended (s : AppState) (cid : String) (pg : Page) (now : Nat)
    (prompt : String) (res : SearchResult)
    (h1 : s.currentPageId = some cid) (hne : ¬ cid = "")
    (h2 : recordLookup s.pages cid = some pg) :
    recordLookup (handleAiSearch now prompt (Except.ok res) s).pages cid =
      some { pg with
             blocks := pg.blocks ++ [aiPromptBlock now prompt, aiResultBlock now res] } ∧
    (pg.blocks ++ [aiPromptBlock now prompt, aiResultBlock now res]).length =
      pg.blocks.length + 2 ∧
    (pg.blocks ++ [aiPromptBlock now prompt, aiResultBlock now res]).take
      pg.blocks.length = pg.blocks ∧
    (pg.blocks ++ [aiPromptBlock now prompt, aiResultBlock now res]).drop
      pg.blocks.length = [aiPromptBlock now prompt, aiResultBlock now res] ∧
    (aiPromptBlock now prompt).type = BlockType.quote ∧
    (aiPromptBlock now prompt).content = "> " ++ prompt ∧
    (aiResultBlock now res).type = BlockType.ai_search_result ∧
    (aiResultBlock now res).content = res.text ∧
    (aiResultBlock now res).sources = some res.sources := by
  refine ⟨?_, by simp, ?_, ?_, rfl, rfl, rfl, rfl, rfl⟩
  · simp [handleAiSearch, h1, hne, resolveAiSearch, h2, recordLookup_set_self]
  · exact List.take_left _ _
  · exact List.drop_left _ _

/-- Claim C3, witness: a successful search on the one-block page p1 appends the
quote block and the result block after the existing block. -/
theorem claim3_witness :
    recordLookup (handleAiSearch 4 "what is X?" (Except.ok resX) stateAi).pages "p1" =
      some { pageWithOne with
             blocks := pageWithOne.blocks ++
               [aiPromptBlock 4 "what is X?", aiResultBlock 4 resX] } :=
  (claim3_amended stateAi "p1" pageWithOne 4 "what is X?" resX rfl (by decide) rfl).1

/-- Claim C6, counterexample: handleAddPage with supplied initial blocks copies
the first heading-1 content into the title verbatim, without stripping markup or
trimming, so a marked-up heading yields a title different from the derivation
rule the claim states. -/
theorem claim6_counterexample :
    (recordLookup (handleAddPage 5 (some newBlocksHello) emptyState).pages
        "page-5").map Page.title = some "Hello <b>World</b>" ∧
    deriveTitleSpec newBlocksHello = "Hello World" ∧
    ¬ ("Hello <b>World</b>" : String) = "Hello World" := by
  refine ⟨?_, ?_, ?_⟩ <;> decide

/-- Claim C6, amended: createPage with a supplied blocks sequence titles the new
page with the raw content of the first heading-1 block, with no markup stripping,
no trimming and no empty-content fallback, and with "Untitled" only when the
sequence has no heading-1 block. -/
theorem claim6_amended (now : Nat) (bs : List ContentBlock) (s : AppState) :
    recordLookup (handleAddPage now (some bs) s).pages ("page-" ++ toString now) =
      some { id := "page-" ++ toString now,
             title :=
               match bs.find? (fun b => decide (b.type = BlockType.h1)) with
               | some h1Block => h1Block.content
               | none => "Untitled",
             blocks := bs } := by
  cases hf : bs.find? (fun b => decide (b.type = BlockType.h1)) with
  | none => simp [handleAddPage, hf, recordLookup_set_self]
  | some h1Block => simp [handleAddPage, hf, recordLookup_set_self]

/-- Claim C7, counterexample: at the same timestamp, load on a failing decode and
load with no stored pages entry produce different states, because the first seeds
handleAddPage() with freshly generated block ids while the second seeds the first
template's block sequence with its stored ids. -/
theorem claim7_counterexample :
    ¬ loadEffect 7 parseAlwaysFails (some "corrupt") none emptyState =
        loadEffect 7 parseAlwaysFails none none emptyState := by
  decide

/-- Claim C7, amended: the state produced by load on a decode failure agrees with
the state produced by load when no pages entry exists on currentPageId, theme,
page keys, page ids, titles and block kinds and contents; only the block ids of
the seeded page differ (freshly generated versus stored in the template). -/
theorem claim7_amended (now : Nat)
    (parse : String → Except Unit (List (String × Page)))
    (raw : String) (savedCur : Option String) (s : AppState)
    (h : parse raw = Except.error ()) :
    (loadEffect now parse (some raw) savedCur s).currentPageId =
      (loadEffect now parse none savedCur s).currentPageId ∧
    (loadEffect now parse (some raw) savedCur s).theme =
      (loadEffect now parse none savedCur s).theme ∧
    (loadEffect now parse (some raw) savedCur s).pages.map
        (fun kv => (kv.1, eraseBlockIds kv.2)) =
      (loadEffect now parse none savedCur s).pages.map
        (fun kv => (kv.1, eraseBlockIds kv.2)) := by
  have hload1 : loadEffect now parse (some raw) savedCur s = handleAddPage now none s := by
    simp [loadEffect, h]
  have hload2 : loadEffect now parse none savedCur s =
      handleAddPage now (some pageTemplates0blocks) s := by
    simp [loadEffect]
  rw [hload1, hload2]
  refine ⟨rfl, rfl, ?_⟩
  simp only [handleAddPage]
  exact map_recordSet_congr _ _ _ _ _ rfl

/-- Claim C7, witness for the amended theorem at a concrete failing decode. -/
theorem claim7_witness :
    (loadEffect 7 parseAlwaysFails (some "bad") none emptyState).currentPageId =
      (loadEffect 7 parseAlwaysFails none none emptyState).currentPageId ∧
    (loadEffect 7 parseAlwaysFails (some "bad") none emptyState).theme =
      (loadEffect 7 parseAlwaysFails none none emptyState).theme ∧
    (loadEffect 7 parseAlwaysFails (some "bad") none emptyState).pages.map
        (fun kv => (kv.1, eraseBlockIds kv.2)) =
      (loadEffect 7 parseAlwaysFails none none emptyState).pages.map
        (fun kv => (kv.1, eraseBlockIds kv.2)) :=
  claim7_amended 7 parseAlwaysFails "bad" none emptyState rfl

/-- Claim C9, counterexample: with a nonempty pages record and currentPageId equal
to the empty string, currentPageId is present, yet the save effect removes the
durable editor-currentPageId entry instead of writing the current value, because
the guard at line 68 tests JS truthiness. -/
theorem claim9_counterexample :
    stateEmptyCurrent.currentPageId = some "" ∧
    ¬ (saveEffect encodeConst stateEmptyCurrent storageEmpty).currentPageIdEntry =
        some "" := by
  constructor
  · rfl
  · decide

/-- Claim C9, amended: save removes the durable pages entry when pages is empty
and writes the encoded mapping otherwise; it removes the durable currentPageId
entry when currentPageId is absent or the empty string, and writes the id
otherwise. -/
theorem claim9_amended (encode : List (String × Page) → String) (s : AppState)
    (st : Storage) :
    (s.pages = [] → (saveEffect encode s st).pagesEntry = none) ∧
    (¬ s.pages = [] → (saveEffect encode s st).pagesEntry = some (encode s.pages)) ∧
    ((s.currentPageId = none ∨ s.currentPageId = some "") →
      (saveEffect encode s st).currentPageIdEntry = none) ∧
    (∀ c, s.currentPageId = some c → ¬ c = "" →
      (saveEffect encode s st).currentPageIdEntry = some c) := by
  refine ⟨?_, ?_, ?_, ?_⟩
  · intro hp
    cases hcur : s.currentPageId with
    | none => simp [saveEffect, hp, hcur, recordKeys]
    | some c =>
      by_cases hce : c = ""
      · simp [saveEffect, hp, hcur, hce, recordKeys]
      · simp [saveEffect, hp, hcur, hce, recordKeys]
  · intro hp
    cases hcur : s.currentPageId with
    | none => simp [saveEffect, hp, hcur, recordKeys, List.length_pos]
    | some c =>
      by_cases hce : c = ""
      · simp [saveEffect, hp, hcur, hce, recordKeys, List.length_pos]
      · simp [saveEffect, hp, hcur, hce, recordKeys, List.length_pos]
  · intro hcur
    rcases hcur with hcur | hcur
    · simp [saveEffect, hcur]
    · simp [saveEffect, hcur]
  · intro c hcur hce
    simp [saveEffect, hcur, hce]

/-- Claim C9, witness: a nonempty store with current page p1 writes both entries;
the initial empty store removes both. -/
theorem claim9_witness :
    (saveEffect encodeConst stateAi storageEmpty).pagesEntry = some "encoded" ∧
    (saveEffect encodeConst stateAi storageEmpty).currentPageIdEntry = some "p1" ∧
    (saveEffect encodeConst emptyState storageEmpty).pagesEntry = none ∧
    (saveEffect encodeConst emptyState storageEmpty).currentPageIdEntry = none := by
  have hA := claim9_amended encodeConst stateAi storageEmpty
  have hB := claim9_amended encodeConst emptyState storageEmpty
  exact ⟨hA.2.1 (by decide), hA.2.2.2 "p1" rfl (by decide), hB.1 rfl,
    hB.2.2.1 (Or.inl rfl)⟩

/-- Claim C10: updateBlocksForCurrentPage modifies at most the pages entry keyed
by currentPageId: the theme is unchanged, every other key maps to its previous
page, and the target page keeps its id field. -/
theorem claim10_frame (s : AppState) (nbs : List ContentBlock) :
    (updateBlocksForCurrentPage nbs s).theme = s.theme ∧
    (∀ k, ¬ s.currentPageId = some k →
      recordLookup (updateBlocksForCurrentPage nbs s).pages k =
        recordLookup s.pages k) ∧
    (∀ cid pg, s.currentPageId = some cid → recordLookup s.pages cid = some pg →
      (recordLookup (updateBlocksForCurrentPage nbs s).pages cid).map Page.id =
        some pg.id) := by
  cases hcur : s.currentPageId with
  | none =>
    refine ⟨by simp [updateBlocksForCurrentPage, hcur], ?_, ?_⟩
    · intro k hk
      simp [updateBlocksForCurrentPage, hcur]
    · intro cid pg hc hl
      exact Option.noConfusion hc
  | some c =>
    by_cases hce : c = ""
    · refine ⟨by simp [updateBlocksForCurrentPage, hcur, hce], ?_, ?_⟩
      · intro k hk
        simp [updateBlocksForCurrentPage, hcur, hce]
      · intro cid pg hc hl
        injection hc with hcc
        subst hcc
        subst hce
        simp [updateBlocksForCurrentPage, hcur, hl]
    · cases hl0 : recordLookup s.pages c with
      | none =>
        refine ⟨by simp [updateBlocksForCurrentPage, hcur, hce, hl0], ?_, ?_⟩
        · intro k hk
          simp [updateBlocksForCurrentPage, hcur, hce, hl0]
        · intro cid pg hc hl
          injection hc with hcc
          subst hcc
          rw [hl0] at hl
          exact Option.noConfusion hl
      | some pg0 =>
        refine ⟨by simp [updateBlocksForCurrentPage, hcur, hce, hl0], ?_, ?_⟩
        · intro k hk
          have hkc : ¬ k = c := by
            intro he
            apply hk
            rw [he]
          simp [updateBlocksForCurrentPage, hcur, hce, hl0,
            recordLookup_set_ne _ _ _ _ hkc]
        · intro cid pg hc hl
          injection hc with hcc
          subst hcc
          rw [hl0] at hl
          injection hl with hpg
          subst hpg
          simp [updateBlocksForCurrentPage, hcur, hce, hl0, recordLookup_set_self]

/-- Claim C10, witness: replacing the blocks of p1 in a two-page store leaves p2
and the theme untouched and keeps the id of p1. -/
theorem claim10_witness :
    (updateBlocksForCurrentPage newBlocksHello stateTwoPages).theme =
      stateTwoPages.theme ∧
    recordLookup (updateBlocksForCurrentPage newBlocksHello stateTwoPages).pages
        "p2" = recordLookup stateTwoPages.pages "p2" ∧
    (recordLookup (updateBlocksForCurrentPage newBlocksHello stateTwoPages).pages
        "p1").map Page.id = some pageOld.id := by
  have h := claim10_frame stateTwoPages newBlocksHello
  exact ⟨h.1, h.2.1 "p2" (by decide), h.2.2 "p1" pageOld rfl rfl⟩

end AiEditor
